import Mathlib

/-!
Verification of the invoice ledger logic of the InvoLuck backend
(`src/models/user.js`, invoice schema section), embedded shallowly over ℚ.

Monetary quantities are modelled as exact rationals (the reference
arithmetic of the specification); dates are epoch instants modelled as ℤ.
`Array.prototype.reduce` with `(sum, x) => sum + x` and initial value `0`
is modelled as `List.foldl`.
-/

namespace InvoLuck

/-- Semantics of JavaScript `Math.round`: round to the nearest integer,
ties toward positive infinity, i.e. `⌊x + 1/2⌋`. -/
def jsRound (x : ℚ) : ℤ := ⌊x + 1/2⌋

/-- Rounding to two decimal places as the source writes it:
`Math.round(x * 100) / 100`. -/
def round2 (x : ℚ) : ℚ := ((jsRound (x * 100) : ℤ) : ℚ) / 100

/-- Modelled from the spec: rounding to the nearest integer with ties away
from zero, the rule the specification names for monetary fields. -/
def roundHalfAwayFromZero (x : ℚ) : ℤ :=
  if 0 ≤ x then ⌊x + 1/2⌋ else -⌊-x + 1/2⌋

/-- Modelled from the spec: two-decimal rounding with ties away from zero. -/
def roundAway2 (x : ℚ) : ℚ := ((roundHalfAwayFromZero (x * 100) : ℤ) : ℚ) / 100

/-- The `status` enum of the invoice schema. -/
inductive InvoiceStatus where
  | draft
  | sent
  | viewed
  | paid
  | overdue
  | cancelled
deriving DecidableEq, Repr

/-- The `discountType` enum of the invoice schema. -/
inductive DiscountType where
  | percentage
  | fixed
deriving DecidableEq, Repr

/-- An invoice line item (`invoiceItemSchema`): the caller-supplied fields
plus the three derived fields `subtotal`, `taxAmount`, `total`. -/
structure InvoiceItem where
  description : String
  quantity : ℚ
  unitPrice : ℚ
  taxRate : ℚ
  discount : ℚ
  subtotal : ℚ
  taxAmount : ℚ
  total : ℚ
deriving Repr

/-- A stored payment record (`paymentRecordSchema`). -/
structure PaymentRecord where
  amount : ℚ
  date : ℤ
  method : String
  reference : Option String
  notes : Option String
deriving Repr, DecidableEq

/-- The invoice document (`invoiceSchema`), restricted to the fields the
ledger logic reads or writes. -/
structure Invoice where
  number : String
  dueDate : ℤ
  status : InvoiceStatus
  items : List InvoiceItem
  subtotal : ℚ
  taxRate : ℚ
  taxAmount : ℚ
  discountType : DiscountType
  discountValue : ℚ
  discountAmount : ℚ
  shippingCost : ℚ
  total : ℚ
  payments : List PaymentRecord
  totalPaid : ℚ
  remainingBalance : ℚ
  sentAt : Option ℤ
  viewedAt : Option ℤ
  paidAt : Option ℤ
deriving Repr

/-- The per-item body of `calculateTotals`: `subtotal = quantity * unitPrice`,
reduced by `subtotal * discount / 100` when `discount > 0`; then
`taxAmount = subtotal * taxRate / 100` and `total = subtotal + taxAmount`. -/
def calculateItemTotals (item : InvoiceItem) : InvoiceItem :=
  let sub0 := item.quantity * item.unitPrice
  let sub := if item.discount > 0 then sub0 - sub0 * item.discount / 100 else sub0
  let tax := sub * item.taxRate / 100
  { item with subtotal := sub, taxAmount := tax, total := sub + tax }

/-- The invoice subtotal before rounding:
`this.items.reduce((sum, item) => sum + item.subtotal, 0)` over the
recomputed items. -/
def rawItemSubtotalSum (inv : Invoice) : ℚ :=
  ((inv.items.map calculateItemTotals).map (fun it => it.subtotal)).foldl
    (fun s a => s + a) 0

/-- The invoice-level discount before rounding: percentage of the subtotal
or the fixed value when `discountValue > 0`, else `0`. -/
def rawDiscountAmount (inv : Invoice) : ℚ :=
  if inv.discountValue > 0 then
    if inv.discountType = DiscountType.percentage then
      rawItemSubtotalSum inv * inv.discountValue / 100
    else inv.discountValue
  else 0

/-- The invoice tax before rounding: `(subtotal - discountAmount) * taxRate / 100`. -/
def rawTaxAmount (inv : Invoice) : ℚ :=
  (rawItemSubtotalSum inv - rawDiscountAmount inv) * inv.taxRate / 100

/-- The invoice total before rounding: `taxableAmount + taxAmount + shippingCost`. -/
def rawTotal (inv : Invoice) : ℚ :=
  (rawItemSubtotalSum inv - rawDiscountAmount inv) + rawTaxAmount inv + inv.shippingCost

/-- The remaining balance before rounding: `total - totalPaid`, with the
unrounded total, exactly as the source computes it. -/
def rawRemainingBalance (inv : Invoice) : ℚ := rawTotal inv - inv.totalPaid

/-- `invoiceSchema.methods.calculateTotals`: recompute every item's derived
fields, then the five invoice-level aggregates, and finally round the five
aggregates to two decimals with `Math.round(x * 100) / 100`. -/
def calculateTotals (inv : Invoice) : Invoice :=
  { inv with
    items := inv.items.map calculateItemTotals
    subtotal := round2 (rawItemSubtotalSum inv)
    discountAmount := round2 (rawDiscountAmount inv)
    taxAmount := round2 (rawTaxAmount inv)
    total := round2 (rawTotal inv)
    remainingBalance := round2 (rawRemainingBalance inv) }

/-- Modelled from the spec (for comparison with `calculateTotals` only):
the same aggregation with the spec's claimed ties-away-from-zero rounding
in place of the source's `Math.round`. -/
def calculateTotalsAway (inv : Invoice) : Invoice :=
  { inv with
    items := inv.items.map calculateItemTotals
    subtotal := roundAway2 (rawItemSubtotalSum inv)
    discountAmount := roundAway2 (rawDiscountAmount inv)
    taxAmount := roundAway2 (rawTaxAmount inv)
    total := roundAway2 (rawTotal inv)
    remainingBalance := roundAway2 (rawRemainingBalance inv) }

/-- Caller-supplied data for `addPayment` (`Partial<IPaymentRecord>` as the
method reads it: `amount` and `method` are used unconditionally, `date`
defaults to `new Date()`). -/
structure PaymentInput where
  amount : ℚ
  date : Option ℤ
  method : String
  reference : Option String
  notes : Option String

/-- The record `addPayment` pushes onto `this.payments`: the caller's
fields, with `date` defaulting to `new Date()`. -/
def pushedPayment (payment : PaymentInput) (now : ℤ) : PaymentRecord :=
  { amount := payment.amount
    date := payment.date.getD now
    method := payment.method
    reference := payment.reference
    notes := payment.notes }

/-- `payments.reduce((sum, p) => sum + p.amount, 0)`. -/
def sumAmounts (l : List PaymentRecord) : ℚ :=
  (l.map (fun p => p.amount)).foldl (fun s a => s + a) 0

/-- `invoiceSchema.methods.addPayment`: push the record, recompute
`totalPaid` as the reduce-sum of all payment amounts and
`remainingBalance = total - totalPaid`, and when the new balance is at most
`0.01` set `status = paid` and `paidAt = now`. -/
def addPayment (inv : Invoice) (payment : PaymentInput) (now : ℤ) : Invoice :=
  let payments := inv.payments ++ [pushedPayment payment now]
  let totalPaid := sumAmounts payments
  let remainingBalance := inv.total - totalPaid
  let inv1 := { inv with
                payments := payments
                totalPaid := totalPaid
                remainingBalance := remainingBalance }
  if remainingBalance ≤ 1/100 then
    { inv1 with status := InvoiceStatus.paid, paidAt := some now }
  else inv1

/-- `String.prototype.padStart(4, '0')` for strings of digits. -/
def padStart4 (s : String) : String :=
  if s.length ≥ 4 then s else String.mk (List.replicate (4 - s.length) '0') ++ s

/-- The generated invoice number of the numbering pre-save hook. -/
def generatedNumber (year : ℕ) (count : ℕ) : String :=
  "INV-" ++ toString year ++ "-" ++ padStart4 (toString (count + 1))

/-- The numbering pre-save hook: when the document is new and `number` is
falsy (the empty string), assign the generated number; `count` stands for
the hook's `countDocuments` result, the number of existing invoices owned
by the same user, and `year` for `new Date().getFullYear()`. -/
def assignNumberHook (inv : Invoice) (isNew : Bool) (count : ℕ) (year : ℕ) : Invoice :=
  if isNew = true ∧ inv.number = "" then
    { inv with number := generatedNumber year count }
  else inv

/-- The status pre-save hook: while the status is `sent` or `viewed` and
`now > dueDate`, set the status to `overdue`; otherwise leave the document
unchanged. -/
def updateStatusHook (inv : Invoice) (now : ℤ) : Invoice :=
  if inv.status = InvoiceStatus.sent ∨ inv.status = InvoiceStatus.viewed then
    if inv.dueDate < now then { inv with status := InvoiceStatus.overdue } else inv
  else inv

/-- The numeric range validators of the invoice schema on the fields this
development reasons about (`min`/`max` options of the schema paths):
items between 1 and 100, per-item `quantity >= 0.01`, nonnegative
`unitPrice`, `taxRate` and `discount` capped at 100, and nonnegative
monetary invoice fields with `taxRate <= 100`. -/
def validateInvoice (inv : Invoice) : Bool :=
  decide (0 < inv.items.length ∧ inv.items.length ≤ 100) &&
  inv.items.all (fun it =>
    decide (1/100 ≤ it.quantity) && decide (0 ≤ it.unitPrice) &&
    decide (0 ≤ it.taxRate ∧ it.taxRate ≤ 100) &&
    decide (0 ≤ it.discount ∧ it.discount ≤ 100)) &&
  decide (0 ≤ inv.subtotal) && decide (0 ≤ inv.taxRate ∧ inv.taxRate ≤ 100) &&
  decide (0 ≤ inv.taxAmount) && decide (0 ≤ inv.discountValue) &&
  decide (0 ≤ inv.discountAmount) && decide (0 ≤ inv.shippingCost) &&
  decide (0 ≤ inv.total) && decide (0 ≤ inv.totalPaid)

/-- One `save()` of an invoice document. Mongoose runs its built-in
validation (a pre-save hook registered before any user hook) on the
document as handed to `save`, and only then the user pre-save hooks in
registration order: `calculateTotals`, the numbering hook, the status
hook; the resulting document is what is persisted. -/
def saveInvoice (inv : Invoice) (isNew : Bool) (count : ℕ) (year : ℕ) (now : ℤ) :
    Except String Invoice :=
  if validateInvoice inv then
    Except.ok (updateStatusHook (assignNumberHook (calculateTotals inv) isNew count year) now)
  else
    Except.error "ValidationError"

/-- Caller-supplied data for `markAsPaid` (`Partial<IPaymentRecord>`; every
field may be absent). -/
structure MarkAsPaidInput where
  amount : Option ℚ
  method : Option String
  reference : Option String
  notes : Option String

/-- JavaScript `a || b` on the optional `amount` field: an absent value and
the falsy number `0` both fall back to `b`. -/
def jsOrAmount (a : Option ℚ) (b : ℚ) : ℚ :=
  match a with
  | none => b
  | some x => if x = 0 then b else x

/-- JavaScript `m || 'other'` on the optional `method` field: an absent
value and the falsy empty string both fall back to `"other"`. -/
def jsOrMethod (m : Option String) : String :=
  match m with
  | none => "other"
  | some s => if s = "" then "other" else s

/-- `invoiceSchema.methods.markAsPaid`: with payment data, delegate to
`addPayment`, defaulting the amount to the current `remainingBalance` and
the method to `"other"`; without payment data, directly force
`status = paid`, `paidAt = now`, `totalPaid = total`, `remainingBalance = 0`. -/
def markAsPaid (inv : Invoice) (paymentData : Option MarkAsPaidInput) (now : ℤ) : Invoice :=
  match paymentData with
  | some pd =>
      addPayment inv
        { amount := jsOrAmount pd.amount inv.remainingBalance,
          date := none,
          method := jsOrMethod pd.method,
          reference := pd.reference,
          notes := pd.notes } now
  | none =>
      { inv with
        status := InvoiceStatus.paid
        paidAt := some now
        totalPaid := inv.total
        remainingBalance := 0 }

/-- `invoiceSchema.methods.isOverdue`: a pure check, true exactly when the
status is neither `paid` nor `cancelled` and `now > dueDate`. -/
def isOverdue (inv : Invoice) (now : ℤ) : Bool :=
  decide (inv.status ≠ InvoiceStatus.paid) &&
  decide (inv.status ≠ InvoiceStatus.cancelled) && decide (inv.dueDate < now)

/-- Modelled from the spec (claim C1's discount formula, for comparison
with `calculateTotals`): the unguarded ternary
`discountType == 'percentage' ? subtotal * discountValue / 100 : discountValue`. -/
def specDiscountAmount (inv : Invoice) : ℚ :=
  if inv.discountType = DiscountType.percentage then
    rawItemSubtotalSum inv * inv.discountValue / 100
  else inv.discountValue

/-! ### Evaluation helpers and projection lemmas -/

theorem round2_eq_of_bounds (x : ℚ) (n : ℤ) (h1 : (n : ℚ) ≤ x * 100 + 1/2)
    (h2 : x * 100 + 1/2 < n + 1) : round2 x = (n : ℚ) / 100 := by
  unfold round2 jsRound
  rw [Int.floor_eq_iff.mpr ⟨h1, h2⟩]

theorem calculateTotals_items (inv : Invoice) :
    (calculateTotals inv).items = inv.items.map calculateItemTotals := rfl

theorem calculateTotals_subtotal (inv : Invoice) :
    (calculateTotals inv).subtotal = round2 (rawItemSubtotalSum inv) := rfl

theorem calculateTotals_discountAmount (inv : Invoice) :
    (calculateTotals inv).discountAmount = round2 (rawDiscountAmount inv) := rfl

theorem calculateTotals_taxAmount (inv : Invoice) :
    (calculateTotals inv).taxAmount = round2 (rawTaxAmount inv) := rfl

theorem calculateTotals_total (inv : Invoice) :
    (calculateTotals inv).total = round2 (rawTotal inv) := rfl

theorem calculateTotals_remainingBalance (inv : Invoice) :
    (calculateTotals inv).remainingBalance = round2 (rawRemainingBalance inv) := rfl

theorem calculateTotals_status (inv : Invoice) :
    (calculateTotals inv).status = inv.status := rfl

theorem calculateTotals_number (inv : Invoice) :
    (calculateTotals inv).number = inv.number := rfl

theorem calculateTotals_dueDate (inv : Invoice) :
    (calculateTotals inv).dueDate = inv.dueDate := rfl

theorem calculateTotals_payments (inv : Invoice) :
    (calculateTotals inv).payments = inv.payments := rfl

theorem calculateTotals_totalPaid (inv : Invoice) :
    (calculateTotals inv).totalPaid = inv.totalPaid := rfl

theorem calculateTotals_paidAt (inv : Invoice) :
    (calculateTotals inv).paidAt = inv.paidAt := rfl

theorem calculateItemTotals_subtotal (item : InvoiceItem) :
    (calculateItemTotals item).subtotal =
      if item.discount > 0 then
        item.quantity * item.unitPrice -
          item.quantity * item.unitPrice * item.discount / 100
      else item.quantity * item.unitPrice := rfl

theorem rawDiscountAmount_of_nonneg (inv : Invoice) (h : 0 ≤ inv.discountValue) :
    rawDiscountAmount inv = specDiscountAmount inv := by
  unfold rawDiscountAmount specDiscountAmount
  rcases lt_or_eq_of_le h with h1 | h1
  · rw [if_pos h1]
  · rw [if_neg (by rw [← h1]; exact lt_irrefl 0), ← h1]
    rcases eq_or_ne inv.discountType DiscountType.percentage with h2 | h2
    · rw [if_pos h2]; ring
    · rw [if_neg h2]

/-! ### Concrete fixtures -/

/-- A default invoice item, fields overridden per test vector below. -/
def baseItem : InvoiceItem :=
  { description := "service"
    quantity := 1
    unitPrice := 100
    taxRate := 0
    discount := 0
    subtotal := 0
    taxAmount := 0
    total := 0 }

/-- A default invoice, fields overridden per test vector below. -/
def baseInvoice : Invoice :=
  { number := "INV-2024-0001"
    dueDate := 0
    status := InvoiceStatus.draft
    items := [baseItem]
    subtotal := 0
    taxRate := 0
    taxAmount := 0
    discountType := DiscountType.percentage
    discountValue := 0
    discountAmount := 0
    shippingCost := 0
    total := 0
    payments := []
    totalPaid := 0
    remainingBalance := 0
    sentAt := none
    viewedAt := none
    paidAt := none }

/-- The first P2/P3 item: quantity 2, unit price 100, tax rate 10, no discount. -/
def p2Item : InvoiceItem := { baseItem with quantity := 2, taxRate := 10 }

/-- The second P3 item: quantity 1, unit price 150, tax rate 10, discount 5. -/
def p3Item2 : InvoiceItem := { baseItem with unitPrice := 150, taxRate := 10, discount := 5 }

/-- The P3 invoice: the two P3 items, tax rate 10, percentage discount 0,
shipping cost 25. -/
def p3Invoice : Invoice :=
  { baseInvoice with
    items := [p2Item, p3Item2]
    taxRate := 10
    shippingCost := 25 }

theorem rawItemSubtotalSum_p3 : rawItemSubtotalSum p3Invoice = 685/2 := by
  norm_num [rawItemSubtotalSum, p3Invoice, p2Item, p3Item2, baseInvoice, baseItem,
    calculateItemTotals, List.foldl]

theorem rawDiscountAmount_p3 : rawDiscountAmount p3Invoice = 0 := by
  norm_num [rawDiscountAmount, p3Invoice, baseInvoice]

theorem rawTaxAmount_p3 : rawTaxAmount p3Invoice = 137/4 := by
  simp only [rawTaxAmount, rawItemSubtotalSum_p3, rawDiscountAmount_p3]
  norm_num [p3Invoice, baseInvoice]

theorem rawTotal_p3 : rawTotal p3Invoice = 1607/4 := by
  simp only [rawTotal, rawItemSubtotalSum_p3, rawDiscountAmount_p3, rawTaxAmount_p3]
  norm_num [p3Invoice, baseInvoice]

/-! ### Claims -/

/-- C1: `calculateTotals` derives the invoice-level fields from the
recomputed line items and the invoice parameters by the spec's formulas —
subtotal the reduce-sum of item subtotals, discount the percentage/fixed
ternary (0 when `discountValue` is 0), tax on the discounted subtotal,
total adding tax and shipping, remaining balance subtracting `totalPaid` —
each stored after the two-decimal rounding the spec prescribes for the
invoice-level aggregates (`round2`, the subject of claim C4); the
computation runs (after schema validation) on every save; and on the P3
vector it yields subtotal 342.5, discount 0, tax 34.25, total 401.75. -/
theorem C1_invoice_level_totals :
    (∀ inv : Invoice, 0 ≤ inv.discountValue →
      (calculateTotals inv).subtotal = round2 (rawItemSubtotalSum inv) ∧
      (calculateTotals inv).discountAmount = round2 (specDiscountAmount inv) ∧
      (calculateTotals inv).taxAmount =
        round2 ((rawItemSubtotalSum inv - specDiscountAmount inv) * inv.taxRate / 100) ∧
      (calculateTotals inv).total =
        round2 (rawItemSubtotalSum inv - specDiscountAmount inv +
          (rawItemSubtotalSum inv - specDiscountAmount inv) * inv.taxRate / 100 +
          inv.shippingCost) ∧
      (calculateTotals inv).remainingBalance =
        round2 (rawItemSubtotalSum inv - specDiscountAmount inv +
          (rawItemSubtotalSum inv - specDiscountAmount inv) * inv.taxRate / 100 +
          inv.shippingCost - inv.totalPaid)) ∧
    (∀ (inv : Invoice) (isNew : Bool) (count year : ℕ) (now : ℤ),
      validateInvoice inv = true →
      saveInvoice inv isNew count year now =
        Except.ok (updateStatusHook (assignNumberHook (calculateTotals inv) isNew count year)
          now)) ∧
    ((calculateTotals p3Invoice).subtotal = 685/2 ∧
     (calculateTotals p3Invoice).discountAmount = 0 ∧
     (calculateTotals p3Invoice).taxAmount = 137/4 ∧
     (calculateTotals p3Invoice).total = 1607/4) := by
  refine ⟨?_, ?_, ?_, ?_, ?_, ?_⟩
  · intro inv h
    have hD := rawDiscountAmount_of_nonneg inv h
    refine ⟨rfl, ?_, ?_, ?_, ?_⟩
    · rw [calculateTotals_discountAmount, hD]
    · rw [calculateTotals_taxAmount]; unfold rawTaxAmount; rw [hD]
    · rw [calculateTotals_total]; unfold rawTotal rawTaxAmount; rw [hD]
    · rw [calculateTotals_remainingBalance]
      unfold rawRemainingBalance rawTotal rawTaxAmount
      rw [hD]
  · intro inv isNew count year now h
    simp [saveInvoice, h]
  · rw [calculateTotals_subtotal, rawItemSubtotalSum_p3,
      round2_eq_of_bounds _ 34250 (by norm_num) (by norm_num)]
    norm_num
  · rw [calculateTotals_discountAmount, rawDiscountAmount_p3,
      round2_eq_of_bounds _ 0 (by norm_num) (by norm_num)]
    norm_num
  · rw [calculateTotals_taxAmount, rawTaxAmount_p3,
      round2_eq_of_bounds _ 3425 (by norm_num) (by norm_num)]
    norm_num
  · rw [calculateTotals_total, rawTotal_p3,
      round2_eq_of_bounds _ 40175 (by norm_num) (by norm_num)]
    norm_num

/-- C1 witness: the general clauses instantiated on the P3 invoice. -/
theorem C1_invoice_level_totals_witness :
    (calculateTotals p3Invoice).subtotal = round2 (rawItemSubtotalSum p3Invoice) ∧
    saveInvoice p3Invoice true 3 2024 (-5) =
      Except.ok (updateStatusHook (assignNumberHook (calculateTotals p3Invoice) true 3 2024)
        (-5)) :=
  ⟨(C1_invoice_level_totals.1 p3Invoice (by norm_num [p3Invoice, baseInvoice])).1,
   C1_invoice_level_totals.2.1 p3Invoice true 3 2024 (-5)
     (by norm_num [validateInvoice, p3Invoice, baseInvoice, p2Item, p3Item2, baseItem])⟩

/-- C2: the per-item pass of `calculateTotals` computes, with no rounding,
`subtotal = quantity * unitPrice` reduced by `subtotal * discount / 100`
when `discount > 0` (so `subtotal = quantity * unitPrice * (1 - discount/100)`
for the schema's nonnegative discounts), `taxAmount = subtotal * taxRate / 100`
and `total = subtotal + taxAmount`; the P2 vector (2, 100, discount 0,
tax 10) yields (200, 20, 220). The exact rational equations themselves
witness that no rounding is applied at line level. -/
theorem C2_line_item_fields :
    (∀ item : InvoiceItem,
      (calculateItemTotals item).subtotal =
        (if item.discount > 0 then
          item.quantity * item.unitPrice -
            item.quantity * item.unitPrice * item.discount / 100
         else item.quantity * item.unitPrice) ∧
      (0 ≤ item.discount →
        (calculateItemTotals item).subtotal =
          item.quantity * item.unitPrice * (1 - item.discount / 100)) ∧
      (calculateItemTotals item).taxAmount =
        (calculateItemTotals item).subtotal * item.taxRate / 100 ∧
      (calculateItemTotals item).total =
        (calculateItemTotals item).subtotal + (calculateItemTotals item).taxAmount) ∧
    ((calculateItemTotals p2Item).subtotal = 200 ∧
     (calculateItemTotals p2Item).taxAmount = 20 ∧
     (calculateItemTotals p2Item).total = 220) := by
  constructor
  · intro item
    refine ⟨rfl, ?_, rfl, rfl⟩
    intro hd
    rw [calculateItemTotals_subtotal]
    rcases lt_or_eq_of_le hd with h1 | h1
    · rw [if_pos h1]; ring
    · rw [if_neg (by rw [← h1]; exact lt_irrefl 0), ← h1]
      norm_num
  · refine ⟨?_, ?_, ?_⟩ <;> norm_num [calculateItemTotals, p2Item, baseItem]

/-- C2 witness: the discounted-product form instantiated on the P2 item. -/
theorem C2_line_item_fields_witness :
    (calculateItemTotals p2Item).subtotal =
      p2Item.quantity * p2Item.unitPrice * (1 - p2Item.discount / 100) :=
  (C2_line_item_fields.1 p2Item).2.1 (by norm_num [p2Item, baseItem])

/-- An invoice already sent, total 100, nothing paid yet. -/
def c3Invoice : Invoice :=
  { baseInvoice with
    status := InvoiceStatus.sent
    total := 100
    remainingBalance := 100 }

/-- A cash payment of the given amount, no explicit date. -/
def c3Payment (a : ℚ) : PaymentInput :=
  { amount := a
    date := none
    method := "cash"
    reference := none
    notes := none }

/-- C3: `addPayment` appends the record, recomputes `totalPaid` as the sum
of all payment amounts and `remainingBalance = total - totalPaid`, and ends
in status `paid` with `paidAt = now` exactly when the new balance is at
most 0.01 or the invoice was already paid (so a paid invoice is never
un-paid); payments summing to the total, or to total minus 0.005, reach
`paid`, while total minus 0.02 does not. -/
theorem C3_addPayment_contract :
    (∀ (inv : Invoice) (payment : PaymentInput) (now : ℤ),
      (addPayment inv payment now).payments = inv.payments ++ [pushedPayment payment now] ∧
      (addPayment inv payment now).totalPaid =
        sumAmounts (inv.payments ++ [pushedPayment payment now]) ∧
      (addPayment inv payment now).remainingBalance =
        inv.total - sumAmounts (inv.payments ++ [pushedPayment payment now]) ∧
      ((addPayment inv payment now).status = InvoiceStatus.paid ↔
        (inv.total - sumAmounts (inv.payments ++ [pushedPayment payment now]) ≤ 1/100 ∨
         inv.status = InvoiceStatus.paid)) ∧
      (inv.total - sumAmounts (inv.payments ++ [pushedPayment payment now]) ≤ 1/100 →
        (addPayment inv payment now).paidAt = some now) ∧
      (¬ inv.total - sumAmounts (inv.payments ++ [pushedPayment payment now]) ≤ 1/100 →
        (addPayment inv payment now).status = inv.status ∧
        (addPayment inv payment now).paidAt = inv.paidAt)) ∧
    ((addPayment c3Invoice (c3Payment 100) 7).status = InvoiceStatus.paid ∧
     (addPayment c3Invoice (c3Payment 100) 7).remainingBalance = 0 ∧
     (addPayment c3Invoice (c3Payment 100) 7).paidAt = some 7 ∧
     (addPayment c3Invoice (c3Payment (19999/200)) 7).status = InvoiceStatus.paid ∧
     (addPayment c3Invoice (c3Payment (4999/50)) 7).status = InvoiceStatus.sent ∧
     (addPayment c3Invoice (c3Payment (4999/50)) 7).paidAt = none) := by
  constructor
  · intro inv payment now
    by_cases hc :
        inv.total - sumAmounts (inv.payments ++ [pushedPayment payment now]) ≤ 1/100
    · simp only [addPayment]
      rw [if_pos hc]
      refine ⟨rfl, rfl, rfl, ?_, fun _ => rfl, fun h => absurd hc h⟩
      exact ⟨fun _ => Or.inl hc, fun _ => rfl⟩
    · simp only [addPayment]
      rw [if_neg hc]
      refine ⟨rfl, rfl, rfl, ?_, fun h => absurd h hc, fun _ => ⟨rfl, rfl⟩⟩
      constructor
      · intro h
        exact Or.inr h
      · intro h
        rcases h with h | h
        · exact absurd h hc
        · exact h
  · refine ⟨?_, ?_, ?_, ?_, ?_, ?_⟩ <;>
      norm_num [addPayment, c3Invoice, c3Payment, pushedPayment, sumAmounts,
        baseInvoice, List.foldl]

/-- C3 witness: the paid-at clause instantiated on a payment of the full
total. -/
theorem C3_addPayment_contract_witness :
    (addPayment c3Invoice (c3Payment 100) 9).paidAt = some 9 :=
  (C3_addPayment_contract.1 c3Invoice (c3Payment 100) 9).2.2.2.2.1
    (by norm_num [c3Invoice, c3Payment, pushedPayment, sumAmounts, baseInvoice, List.foldl])

/-- One plain item of 100 with tax rate 0, no invoice-level tax or
discount, and `totalPaid` 100.005, so that the unrounded remaining balance
is the negative tie -0.005. -/
def c4Invoice : Invoice := { baseInvoice with totalPaid := 20001/200 }

theorem rawItemSubtotalSum_c4 : rawItemSubtotalSum c4Invoice = 100 := by
  norm_num [rawItemSubtotalSum, c4Invoice, baseInvoice, baseItem,
    calculateItemTotals, List.foldl]

theorem rawRemainingBalance_c4 : rawRemainingBalance c4Invoice = -1/200 := by
  simp only [rawRemainingBalance, rawTotal, rawTaxAmount, rawItemSubtotalSum_c4]
  norm_num [rawDiscountAmount, c4Invoice, baseInvoice]

theorem calculateTotalsAway_remainingBalance (inv : Invoice) :
    (calculateTotalsAway inv).remainingBalance = roundAway2 (rawRemainingBalance inv) := rfl

/-- C4 counterexample: on `c4Invoice` the unrounded remaining balance is
-0.005; the source's `Math.round(x * 100) / 100` stores 0, while the
spec's ties-away-from-zero rule would store -0.01, so the five fields are
not rounded with round-half-away-from-zero. -/
theorem C4_half_away_counterexample :
    (calculateTotals c4Invoice).remainingBalance = 0 ∧
    (calculateTotalsAway c4Invoice).remainingBalance = -1/100 ∧
    (calculateTotals c4Invoice).remainingBalance ≠
      (calculateTotalsAway c4Invoice).remainingBalance := by
  have h1 : (calculateTotals c4Invoice).remainingBalance = 0 := by
    rw [calculateTotals_remainingBalance, rawRemainingBalance_c4,
      round2_eq_of_bounds _ 0 (by norm_num) (by norm_num)]
    norm_num
  have h2 : (calculateTotalsAway c4Invoice).remainingBalance = -1/100 := by
    rw [calculateTotalsAway_remainingBalance, rawRemainingBalance_c4]
    unfold roundAway2 roundHalfAwayFromZero
    rw [if_neg (by norm_num), show (-((-1 : ℚ)/200 * 100) + 1/2) = 1 by norm_num,
      Int.floor_one]
    norm_num
  refine ⟨h1, h2, ?_⟩
  rw [h1, h2]
  norm_num

/-- C4 (amended): the five derived monetary fields produced by
`calculateTotals` are all rounded to exactly two decimal places by one and
the same rule, namely JavaScript `Math.round` semantics — round to the
nearest multiple of 0.01 with ties toward positive infinity — which agrees
with ties-away-from-zero on all nonnegative values (only negative ties
such as -0.005 differ); a computed total of 219.995 rounds to 220.00. -/
theorem C4_rounding_rule_amended :
    (∀ inv : Invoice,
      (calculateTotals inv).subtotal = round2 (rawItemSubtotalSum inv) ∧
      (calculateTotals inv).discountAmount = round2 (rawDiscountAmount inv) ∧
      (calculateTotals inv).taxAmount = round2 (rawTaxAmount inv) ∧
      (calculateTotals inv).total = round2 (rawTotal inv) ∧
      (calculateTotals inv).remainingBalance = round2 (rawRemainingBalance inv)) ∧
    (∀ x : ℚ, ∃ n : ℤ, round2 x = (n : ℚ) / 100) ∧
    (∀ x : ℚ, 0 ≤ x → round2 x = roundAway2 x) ∧
    round2 (43999/200) = 220 := by
  refine ⟨fun inv => ⟨rfl, rfl, rfl, rfl, rfl⟩, fun x => ⟨jsRound (x * 100), rfl⟩, ?_, ?_⟩
  · intro x h
    unfold round2 roundAway2 jsRound roundHalfAwayFromZero
    rw [if_pos (mul_nonneg h (by norm_num))]
  · rw [round2_eq_of_bounds _ 22000 (by norm_num) (by norm_num)]
    norm_num

/-- C4 witness: the agreement of the two rules instantiated at the
nonnegative value 219.995. -/
theorem C4_rounding_rule_amended_witness :
    round2 (43999/200) = roundAway2 (43999/200) :=
  C4_rounding_rule_amended.2.2.1 (43999/200) (by norm_num)

/-- One plain item of 100, invoice tax rate 10, and a fixed discount of
200 exceeding the 100 subtotal. -/
def c5Invoice : Invoice :=
  { baseInvoice with
    dueDate := 1
    taxRate := 10
    discountType := DiscountType.fixed
    discountValue := 200 }

theorem rawItemSubtotalSum_c5 : rawItemSubtotalSum c5Invoice = 100 := by
  norm_num [rawItemSubtotalSum, c5Invoice, baseInvoice, baseItem,
    calculateItemTotals, List.foldl]

theorem rawDiscountAmount_c5 : rawDiscountAmount c5Invoice = 200 := by
  norm_num [rawDiscountAmount, c5Invoice, baseInvoice]
  intro h
  exact absurd h (by decide)

theorem rawTaxAmount_c5 : rawTaxAmount c5Invoice = -10 := by
  simp only [rawTaxAmount, rawItemSubtotalSum_c5, rawDiscountAmount_c5]
  norm_num [c5Invoice, baseInvoice]

theorem rawTotal_c5 : rawTotal c5Invoice = -110 := by
  simp only [rawTotal, rawItemSubtotalSum_c5, rawDiscountAmount_c5, rawTaxAmount_c5]
  norm_num [c5Invoice, baseInvoice]

/-- C5: `calculateTotals` applies the tax and total formulas to the
taxable amount `subtotal - discountAmount` with no clamping, so when the
discount exceeds the item subtotals — as on `c5Invoice`, fixed discount
200 against subtotal 100 — the computed `taxAmount` (-10) and `total`
(-110) are negative; and `save` raises no error on such an invoice: the
pre-save hooks run after mongoose's built-in validation of the incoming
document, so the freshly computed negative totals are persisted as-is. -/
theorem C5_negative_taxable_flows_through :
    (∀ inv : Invoice,
      (calculateTotals inv).taxAmount =
        round2 ((rawItemSubtotalSum inv - rawDiscountAmount inv) * inv.taxRate / 100) ∧
      (calculateTotals inv).total =
        round2 (rawItemSubtotalSum inv - rawDiscountAmount inv + rawTaxAmount inv +
          inv.shippingCost)) ∧
    rawItemSubtotalSum c5Invoice < rawDiscountAmount c5Invoice ∧
    (calculateTotals c5Invoice).taxAmount = -10 ∧
    (calculateTotals c5Invoice).total = -110 ∧
    saveInvoice c5Invoice false 0 2024 0 = Except.ok (calculateTotals c5Invoice) := by
  refine ⟨fun inv => ⟨rfl, rfl⟩, ?_, ?_, ?_, ?_⟩
  · rw [rawItemSubtotalSum_c5, rawDiscountAmount_c5]
    norm_num
  · rw [calculateTotals_taxAmount, rawTaxAmount_c5,
      round2_eq_of_bounds _ (-1000) (by norm_num) (by norm_num)]
    norm_num
  · rw [calculateTotals_total, rawTotal_c5,
      round2_eq_of_bounds _ (-11000) (by norm_num) (by norm_num)]
    norm_num
  · have hv : validateInvoice c5Invoice = true := by
      norm_num [validateInvoice, c5Invoice, baseInvoice, baseItem]
    have h1 : assignNumberHook (calculateTotals c5Invoice) false 0 2024 =
        calculateTotals c5Invoice := by
      simp [assignNumberHook]
    have h2 : updateStatusHook (calculateTotals c5Invoice) 0 = calculateTotals c5Invoice := by
      unfold updateStatusHook
      rw [if_neg (by decide)]
    simp [saveInvoice, hv, h1, h2]

/-- A paid invoice whose due date (0) is already in the past. -/
def c6PaidInvoice : Invoice :=
  { baseInvoice with status := InvoiceStatus.paid }

/-- C6: the status pre-save hook never moves an invoice out of `paid` or
`cancelled`: for any due date and any current time it leaves such a
document entirely unchanged. -/
theorem C6_terminal_status_stable :
    ∀ (inv : Invoice) (now : ℤ),
      inv.status = InvoiceStatus.paid ∨ inv.status = InvoiceStatus.cancelled →
      updateStatusHook inv now = inv := by
  intro inv now h
  unfold updateStatusHook
  rcases h with h | h <;> rw [if_neg (by rw [h]; decide)]

/-- C6 witness: a paid invoice with a past due date survives the hook
unchanged. -/
theorem C6_terminal_status_stable_witness :
    updateStatusHook c6PaidInvoice 100 = c6PaidInvoice :=
  C6_terminal_status_stable c6PaidInvoice 100 (Or.inl rfl)

/-- A sent invoice whose due date (0) is already in the past. -/
def c7SentInvoice : Invoice :=
  { baseInvoice with status := InvoiceStatus.sent }

/-- C7: the status pre-save hook sets `overdue` exactly when the status is
`sent` or `viewed` and `now > dueDate`, and otherwise leaves the document
unchanged; a sent invoice past its due date comes out of a save `overdue`,
while a draft invoice with the same past due date stays `draft`. -/
theorem C7_overdue_derivation :
    (∀ (inv : Invoice) (now : ℤ),
      ((inv.status = InvoiceStatus.sent ∨ inv.status = InvoiceStatus.viewed) →
        inv.dueDate < now →
        (updateStatusHook inv now).status = InvoiceStatus.overdue) ∧
      (¬ ((inv.status = InvoiceStatus.sent ∨ inv.status = InvoiceStatus.viewed) ∧
          inv.dueDate < now) →
        updateStatusHook inv now = inv)) ∧
    (updateStatusHook c7SentInvoice 100).status = InvoiceStatus.overdue ∧
    (saveInvoice c7SentInvoice false 0 2024 100).map Invoice.status =
      Except.ok InvoiceStatus.overdue ∧
    updateStatusHook baseInvoice 100 = baseInvoice := by
  refine ⟨?_, ?_, ?_, ?_⟩
  · intro inv now
    constructor
    · intro hs hd
      unfold updateStatusHook
      rw [if_pos hs, if_pos hd]
    · intro h
      unfold updateStatusHook
      by_cases hA : inv.status = InvoiceStatus.sent ∨ inv.status = InvoiceStatus.viewed
      · rw [if_pos hA, if_neg (fun hB => h ⟨hA, hB⟩)]
      · rw [if_neg hA]
  · decide
  · have hv : validateInvoice c7SentInvoice = true := by
      norm_num [validateInvoice, c7SentInvoice, baseInvoice, baseItem]
    have h1 : assignNumberHook (calculateTotals c7SentInvoice) false 0 2024 =
        calculateTotals c7SentInvoice := by
      simp [assignNumberHook]
    have h2 : (updateStatusHook (calculateTotals c7SentInvoice) 100).status =
        InvoiceStatus.overdue := by decide
    simp [saveInvoice, hv, h1, Except.map, h2]
  · simp [updateStatusHook, baseInvoice]

/-- C7 witness: the overdue transition instantiated on the past-due sent
invoice. -/
theorem C7_overdue_derivation_witness :
    (updateStatusHook c7SentInvoice 100).status = InvoiceStatus.overdue :=
  (C7_overdue_derivation.1 c7SentInvoice 100).1 (Or.inl rfl) (by decide)

/-- A new invoice whose caller did not supply a number. -/
def c8BlankInvoice : Invoice := { baseInvoice with number := "" }

/-- C8: the numbering pre-save hook assigns
`INV-<year>-<count + 1 zero-padded to 4 digits>` exactly to new documents
with a falsy number — an owner with 3 existing invoices in 2024 gets
`INV-2024-0004` — and never overwrites a supplied number or renumbers an
existing document. -/
theorem C8_invoice_numbering :
    (∀ (inv : Invoice) (count year : ℕ), inv.number = "" →
      (assignNumberHook inv true count year).number =
        "INV-" ++ toString year ++ "-" ++ padStart4 (toString (count + 1))) ∧
    (∀ (inv : Invoice) (count year : ℕ), inv.number ≠ "" →
      assignNumberHook inv true count year = inv) ∧
    (∀ (inv : Invoice) (count year : ℕ), assignNumberHook inv false count year = inv) ∧
    generatedNumber 2024 3 = "INV-2024-0004" := by
  refine ⟨?_, ?_, ?_, ?_⟩
  · intro inv count year h
    unfold assignNumberHook
    rw [if_pos ⟨rfl, h⟩]
    rfl
  · intro inv count year h
    unfold assignNumberHook
    rw [if_neg (fun hc => h hc.2)]
  · intro inv count year
    unfold assignNumberHook
    rw [if_neg (fun hc => Bool.false_ne_true hc.1)]
  · rfl

/-- C8 witness: the assignment clause instantiated on a blank-numbered new
invoice, 3 existing invoices, year 2024. -/
theorem C8_invoice_numbering_witness :
    (assignNumberHook c8BlankInvoice true 3 2024).number =
      "INV-" ++ toString 2024 ++ "-" ++ padStart4 (toString (3 + 1)) :=
  C8_invoice_numbering.1 c8BlankInvoice 3 2024 rfl

/-- Payment data for `markAsPaid` with every field absent. -/
def c9Input : MarkAsPaidInput :=
  { amount := none
    method := none
    reference := none
    notes := none }

/-- C9: `markAsPaid` without payment data directly forces `status = paid`,
`paidAt = now`, `totalPaid = total`, `remainingBalance = 0` and leaves the
payment ledger untouched; with payment data it delegates to `addPayment`,
the amount defaulting to the current `remainingBalance` when none is
given. -/
theorem C9_markAsPaid_modes :
    (∀ (inv : Invoice) (now : ℤ),
      markAsPaid inv none now =
        { inv with
          status := InvoiceStatus.paid
          paidAt := some now
          totalPaid := inv.total
          remainingBalance := 0 } ∧
      (markAsPaid inv none now).payments = inv.payments ∧
      (markAsPaid inv none now).status = InvoiceStatus.paid) ∧
    (∀ (inv : Invoice) (pd : MarkAsPaidInput) (now : ℤ),
      markAsPaid inv (some pd) now =
        addPayment inv
          { amount := jsOrAmount pd.amount inv.remainingBalance
            date := none
            method := jsOrMethod pd.method
            reference := pd.reference
            notes := pd.notes } now) ∧
    (∀ (inv : Invoice) (pd : MarkAsPaidInput) (now : ℤ), pd.amount = none →
      markAsPaid inv (some pd) now =
        addPayment inv
          { amount := inv.remainingBalance
            date := none
            method := jsOrMethod pd.method
            reference := pd.reference
            notes := pd.notes } now) := by
  refine ⟨fun inv now => ⟨rfl, rfl, rfl⟩, fun inv pd now => rfl, ?_⟩
  intro inv pd now h
  simp only [markAsPaid]
  rw [h]
  rfl

/-- C9 witness: the delegation with defaulted amount instantiated on the
sent invoice and fully-absent payment data. -/
theorem C9_markAsPaid_modes_witness :
    markAsPaid c3Invoice (some c9Input) 5 =
      addPayment c3Invoice
        { amount := c3Invoice.remainingBalance
          date := none
          method := jsOrMethod c9Input.method
          reference := c9Input.reference
          notes := c9Input.notes } 5 :=
  C9_markAsPaid_modes.2.2 c3Invoice c9Input 5 rfl

/-- C10: for any invoice that is neither `paid` nor `cancelled`,
`isOverdue` — a pure check that never mutates the document — returns true
exactly when the current time is strictly after `dueDate`; in particular
the past-due draft invoice reports overdue even though the save-time hook
leaves a draft invoice's status untouched. -/
theorem C10_isOverdue_check :
    (∀ (inv : Invoice) (now : ℤ),
      inv.status ≠ InvoiceStatus.paid → inv.status ≠ InvoiceStatus.cancelled →
      (isOverdue inv now = true ↔ inv.dueDate < now)) ∧
    isOverdue baseInvoice 100 = true ∧
    updateStatusHook baseInvoice 100 = baseInvoice := by
  refine ⟨?_, ?_, ?_⟩
  · intro inv now h1 h2
    simp [isOverdue, h1, h2]
  · decide
  · simp [updateStatusHook, baseInvoice]

/-- C10 witness: the equivalence instantiated on the past-due draft
invoice. -/
theorem C10_isOverdue_check_witness :
    isOverdue baseInvoice 100 = true ↔ baseInvoice.dueDate < 100 :=
  C10_isOverdue_check.1 baseInvoice 100 (by decide) (by decide)

end InvoLuck
